import Mathlib

/-!
Shallow embedding of src/workspace/read_excel.py.

The script is: an argv check (usage + exit 1 when no positional argument),
pd.ExcelFile(path) (fatal uncaught error on bad files), printing the sheet
name list, and a loop that for each sheet prints a header, reads the sheet,
replaces NaN cells with the empty string (df.fillna) and prints the table
without the row index (df.to_string with index False), then a blank line.

The pandas library is third-party, so its observable behaviour is modelled:
a workbook is an ordered list of named sheets; a sheet is a grid of optional
scalar cells (absent = NaN); fillna replaces absent cells; to_string renders
the grid as space-padded lines, header first, no index column.  A sheet whose
entry is none models a sheet for which pd.read_excel raises; the script has
no try/except, so such a failure propagates and kills the process (modelled
as exit code 1 with a diagnostic flag, as for an uncaught Python exception).
-/

namespace ReadExcel

/-- A scalar cell value as pandas presents it: number, text or date. -/
inductive CellValue where
  | num (n : Int)
  | str (s : String)
  | date (d : String)
deriving DecidableEq

/-- The textual value of a present cell, as printed by pandas. -/
def CellValue.render : CellValue → String
  | .num n => toString n
  | .str s => s
  | .date d => d

/-- A cell of the grid: none models an absent (NaN) cell. -/
abbrev Cell := Option CellValue

/-- The grid pd.read_excel produces: inferred column names and rows of cells. -/
structure DataFrame where
  columns : List String
  rows : List (List Cell)
deriving DecidableEq

/-- Effect of df.fillna on one cell: an absent cell becomes the
empty string, a present cell is untouched. -/
def fillCell (c : Cell) : Cell :=
  match c with
  | none => some (.str "")
  | some v => some v

/-- df.fillna with the empty string: every absent cell of every row is
replaced by the empty string; columns are unchanged. -/
def DataFrame.fillnaEmpty (df : DataFrame) : DataFrame :=
  { columns := df.columns, rows := df.rows.map (fun r => r.map fillCell) }

/-- The text pandas shows for one cell: NaN for an absent cell, the
rendered scalar otherwise. -/
def cellText (c : Cell) : String :=
  match c with
  | none => "NaN"
  | some v => v.render

/-- The grid of cell texts of a data frame, row by row. -/
def DataFrame.cellTexts (df : DataFrame) : List (List String) :=
  df.rows.map (fun r => r.map cellText)

/-- The full textual grid df.to_string lays out with index False: the
column names first, then the cell texts; no row-index column. -/
def DataFrame.tableGrid (df : DataFrame) : List (List String) :=
  df.columns :: df.cellTexts

/-- Width of column j of a textual grid: the widest entry in that column. -/
def colWidth (grid : List (List String)) (j : Nat) : Nat :=
  grid.foldr (fun r acc => max (r.getD j "").length acc) 0

/-- Space-pad a cell text to the column width (pandas justifies to the
column width with spaces). -/
def padCell (w : Nat) (s : String) : String :=
  String.mk (List.replicate (w - s.length) ' ') ++ s

/-- One printed line of the table: the row's cells padded to their column
widths and separated by single spaces. -/
def renderRow (grid : List (List String)) (r : List String) : String :=
  String.intercalate " " (r.enum.map (fun p => padCell (colWidth grid p.1) p.2))

/-- The lines df.to_string(index=False) prints: one per grid row. -/
def tableLines (df : DataFrame) : List String :=
  df.tableGrid.map (renderRow df.tableGrid)

/-- A workbook as pd.ExcelFile exposes it: the declared, ordered sheets.
A sheet mapped to none is one for which pd.read_excel raises. -/
structure Workbook where
  sheets : List (String × Option DataFrame)
deriving DecidableEq

/-- xl.sheet_names: the declared sheet names, in declared order. -/
def Workbook.sheet_names (wb : Workbook) : List String :=
  wb.sheets.map Prod.fst

/-- The file system seen through pd.ExcelFile: a path either opens as a
workbook or fails (missing, unreadable, or not a spreadsheet). -/
abbrev FileSystem := String → Option Workbook

/-- Ambient process state the script never consults: environment variables
and a clock.  It is an explicit argument of the run so that independence
from it is a provable statement, not an artefact of the embedding. -/
structure World where
  env : String → Option String
  clock : Nat

/-- The fixed usage string printed when no path argument is given. -/
def usageLine : String := "Usage: python3 read_excel.py <excel_file_path>"

/-- The fixed label line printed before the sheet-name list. -/
def listHeader : String := "=== 工作表列表 ==="

/-- The per-sheet label line printed before a sheet's table. -/
def headerLine (n : String) : String := "=== 工作表: " ++ n ++ " ==="

/-- Python's printed representation of a list of plain strings, as
print(xl.sheet_names) shows it. -/
def pyRepr (names : List String) : String :=
  "[" ++ String.intercalate ", " (names.map (fun s => "\x27" ++ s ++ "\x27")) ++ "]"

/-- The stdout lines one iteration of the sheet loop contributes when it
completes: header, table lines, blank line.  When the sheet's read raises,
only the header has been printed. -/
def sheetBlock : String × Option DataFrame → List String
  | (n, some df) => headerLine n :: (tableLines df.fillnaEmpty ++ [""])
  | (n, none) => [headerLine n]

/-- Outcome of the per-sheet loop: the lines printed, the file opens
performed, and whether an uncaught per-sheet failure aborted the loop. -/
structure LoopOut where
  lines : List String
  opens : List String
  crashed : Bool
deriving DecidableEq

/-- The per-sheet loop of the script: print the header, open the file and
read the sheet, print the filled table and a blank line; a read failure
stops everything after its header. -/
def renderSheets (path : String) : List (String × Option DataFrame) → LoopOut
  | [] => ⟨[], [], false⟩
  | (n, none) :: _ => ⟨[headerLine n], [path], true⟩
  | (n, some df) :: rest =>
      let o := renderSheets path rest
      ⟨headerLine n :: (tableLines df.fillnaEmpty ++ ("" :: o.lines)),
       path :: o.opens, o.crashed⟩

/-- Observable outcome of one invocation: stdout lines, exit code, the
file paths opened, and whether a diagnostic traceback was emitted. -/
structure RunResult where
  stdout : List String
  exitCode : Nat
  opened : List String
  diagnostic : Bool
deriving DecidableEq

/-- The whole script, argv given as sys.argv (program name included):
usage check, pd.ExcelFile, sheet-name listing, per-sheet loop.  An
uncaught error (bad file, failing sheet) exits with code 1 and a
diagnostic trace, as the Python interpreter does. -/
def runScript (argv : List String) (fs : FileSystem) (_w : World) : RunResult :=
  if argv.length < 2 then
    ⟨[usageLine], 1, [], false⟩
  else
    let path := (argv[1]?).getD ""
    match fs path with
    | none => ⟨[], 1, [path], true⟩
    | some wb =>
        let o := renderSheets path wb.sheets
        ⟨listHeader :: pyRepr wb.sheet_names :: "" :: o.lines,
         if o.crashed then 1 else 0,
         path :: o.opens,
         o.crashed⟩

/-- Concatenated per-sheet stdout blocks of a list of sheets. -/
def blocks : List (String × Option DataFrame) → List String
  | [] => []
  | p :: ps => sheetBlock p ++ blocks ps

/-- A fixed world used to instantiate theorems at concrete inputs. -/
def anyWorld : World := ⟨fun _ => none, 0⟩

/-- The Sheet1 frame of the spec's scenario: columns A, B and the single
row (1, absent). -/
def df1 : DataFrame := ⟨["A", "B"], [[some (.num 1), none]]⟩

/-- A second concrete frame, used for Sheet2 of the scenario. -/
def df2 : DataFrame := ⟨["C"], [[some (.str "x")]]⟩

/-- The scenario workbook: sheets Sheet1 and Sheet2, in that order. -/
def wbC5 : Workbook := ⟨[("Sheet1", some df1), ("Sheet2", some df2)]⟩

/-- A file system mapping book.xlsx to the scenario workbook. -/
def fsC5 : FileSystem := fun p => if p = "book.xlsx" then some wbC5 else none

/-- The scenario run of the script. -/
def runC5 : RunResult := runScript ["read_excel.py", "book.xlsx"] fsC5 anyWorld

/-- A workbook whose second sheet fails to read. -/
def wbFail : Workbook := ⟨[("S1", some df2), ("S2", none), ("S3", some df1)]⟩

/- Helper lemmas about the per-sheet loop. -/

theorem renderSheets_ok (path : String) (sheets : List (String × Option DataFrame))
    (h : ∀ p ∈ sheets, p.2.isSome) :
    renderSheets path sheets = ⟨blocks sheets, sheets.map (fun _ => path), false⟩ := by
  induction sheets with
  | nil => rfl
  | cons p rest ih =>
    obtain ⟨n, odf⟩ := p
    have hs : odf.isSome := h (n, odf) (List.mem_cons_self _ _)
    obtain ⟨df, rfl⟩ := Option.isSome_iff_exists.mp hs
    have ih2 := ih (fun q hq => h q (List.mem_cons_of_mem _ hq))
    simp [renderSheets, blocks, sheetBlock, ih2]

theorem renderSheets_fail (path : String) (pre : List (String × Option DataFrame))
    (n : String) (post : List (String × Option DataFrame))
    (h : ∀ p ∈ pre, p.2.isSome) :
    renderSheets path (pre ++ (n, none) :: post) =
      ⟨blocks pre ++ [headerLine n], pre.map (fun _ => path) ++ [path], true⟩ := by
  induction pre with
  | nil => simp [renderSheets, blocks]
  | cons p rest ih =>
    obtain ⟨m, odf⟩ := p
    have hs : odf.isSome := h (m, odf) (List.mem_cons_self _ _)
    obtain ⟨df, rfl⟩ := Option.isSome_iff_exists.mp hs
    have ih2 := ih (fun q hq => h q (List.mem_cons_of_mem _ hq))
    simp [renderSheets, blocks, sheetBlock, ih2]

/- Claim theorems. -/

/-- Claim C1: for every sheet grid, after the fillna step an absent cell's
shown text is the empty string, and a present cell's shown text is its
rendered scalar value, unaltered. -/
theorem c1_absent_empty_present_unaltered (df : DataFrame) :
    df.fillnaEmpty.cellTexts =
      df.rows.map (fun r => r.map (fun c =>
        match c with
        | none => ""
        | some v => v.render)) := by
  simp only [DataFrame.cellTexts, DataFrame.fillnaEmpty, List.map_map]
  congr 1
  funext r
  simp only [Function.comp_apply, List.map_map]
  congr 1
  funext c
  cases c <;> rfl

/-- Claim C3: with no positional argument (sys.argv shorter than 2), the
run prints exactly the usage line, exits with code 1, and opens no file. -/
theorem c3_usage_exit (argv : List String) (fs : FileSystem) (w : World)
    (h : argv.length < 2) :
    (runScript argv fs w).stdout = [usageLine] ∧
    (runScript argv fs w).exitCode = 1 ∧
    (runScript argv fs w).opened = [] := by
  simp [runScript, h]

theorem c3_usage_exit_witness :
    (["read_excel.py"] : List String).length < 2 ∧
    ((runScript ["read_excel.py"] (fun _ => none) anyWorld).stdout = [usageLine] ∧
     (runScript ["read_excel.py"] (fun _ => none) anyWorld).exitCode = 1 ∧
     (runScript ["read_excel.py"] (fun _ => none) anyWorld).opened = []) :=
  ⟨by decide, c3_usage_exit ["read_excel.py"] (fun _ => none) anyWorld (by decide)⟩

/-- Claim C8: the run is a function of argv and the input file alone; any
two runs with the same argv and file contents, whatever the ambient
environment or clock, produce identical observable outcomes, so running
twice on the same unmodified file gives byte-identical stdout. -/
theorem c8_deterministic (argv : List String) (fs : FileSystem) (w1 w2 : World) :
    runScript argv fs w1 = runScript argv fs w2 := rfl

/-- Claim C2: on a valid workbook (a path that opens and whose sheets all
read), stdout is exactly the list-header line, the printed sheet-name list
in declared order, a blank line, then for each sheet in that order its
header line immediately followed by its table and a blank line. -/
theorem c2_stdout_layout (argv : List String) (fs : FileSystem) (w : World)
    (path : String) (wb : Workbook)
    (hlen : 2 ≤ argv.length) (hpath : argv[1]? = some path)
    (hfs : fs path = some wb) (hok : ∀ p ∈ wb.sheets, p.2.isSome) :
    (runScript argv fs w).stdout =
      listHeader :: pyRepr (wb.sheets.map Prod.fst) :: "" :: blocks wb.sheets := by
  have h2 : ¬ argv.length < 2 := by omega
  simp [runScript, h2, hpath, hfs, renderSheets_ok path wb.sheets hok,
    Workbook.sheet_names]

theorem c2_stdout_layout_witness :
    (runScript ["read_excel.py", "book.xlsx"] fsC5 anyWorld).stdout =
      listHeader :: pyRepr (wbC5.sheets.map Prod.fst) :: "" :: blocks wbC5.sheets :=
  c2_stdout_layout ["read_excel.py", "book.xlsx"] fsC5 anyWorld "book.xlsx" wbC5
    (by decide) (by decide) (by decide) (by decide)

/-- Claim C4: when the path does not open as a spreadsheet, the run exits
with a non-zero code via an uncaught propagated failure with a diagnostic
trace, after opening only that file and printing no sheet header. -/
theorem c4_load_failure (argv : List String) (fs : FileSystem) (w : World)
    (path : String)
    (hlen : 2 ≤ argv.length) (hpath : argv[1]? = some path)
    (hfs : fs path = none) :
    (runScript argv fs w).exitCode ≠ 0 ∧
    (runScript argv fs w).diagnostic = true ∧
    ∀ l ∈ (runScript argv fs w).stdout, ¬ l.startsWith "=== 工作表" := by
  have h2 : ¬ argv.length < 2 := by omega
  simp [runScript, h2, hpath, hfs]

theorem c4_load_failure_witness :
    (runScript ["read_excel.py", "notes.txt"] fsC5 anyWorld).exitCode ≠ 0 ∧
    (runScript ["read_excel.py", "notes.txt"] fsC5 anyWorld).diagnostic = true ∧
    ∀ l ∈ (runScript ["read_excel.py", "notes.txt"] fsC5 anyWorld).stdout,
      ¬ l.startsWith "=== 工作表" :=
  c4_load_failure ["read_excel.py", "notes.txt"] fsC5 anyWorld "notes.txt"
    (by decide) (by decide) (by decide)

/-- Claim C5: on the scenario workbook with sheets Sheet1 and Sheet2 where
Sheet1 has columns A, B and the single row (1, absent), the run prints
Sheet1's header before Sheet2's, and the row's shown texts are 1 under
column A and the empty string under column B. -/
theorem c5_scenario :
    runC5.stdout.indexOf (headerLine "Sheet1") <
      runC5.stdout.indexOf (headerLine "Sheet2") ∧
    headerLine "Sheet1" ∈ runC5.stdout ∧
    headerLine "Sheet2" ∈ runC5.stdout ∧
    df1.columns = ["A", "B"] ∧
    df1.fillnaEmpty.cellTexts = [["1", ""]] := by
  decide

/-- Claim C6: the loop visits every sheet the loader returned, in the
loader's order, with no filtering and no early stop: when every sheet
reads, stdout holds every sheet's full block in order and the exit code is
0; when some sheet fails to read, everything after that sheet's header is
cut off and the whole run exits non-zero (no per-sheet isolation). -/
theorem c6_loop_order_fatal (argv : List String) (fs : FileSystem) (w : World)
    (path : String) (wb : Workbook)
    (hlen : 2 ≤ argv.length) (hpath : argv[1]? = some path)
    (hfs : fs path = some wb) :
    ((∀ p ∈ wb.sheets, p.2.isSome) →
      (runScript argv fs w).stdout =
        listHeader :: pyRepr wb.sheet_names :: "" :: blocks wb.sheets ∧
      (runScript argv fs w).exitCode = 0) ∧
    (∀ pre n post, wb.sheets = pre ++ (n, none) :: post →
      (∀ p ∈ pre, p.2.isSome) →
      (runScript argv fs w).stdout =
        listHeader :: pyRepr wb.sheet_names :: "" ::
          (blocks pre ++ [headerLine n]) ∧
      (runScript argv fs w).exitCode ≠ 0) := by
  have h2 : ¬ argv.length < 2 := by omega
  constructor
  · intro hok
    simp [runScript, h2, hpath, hfs, renderSheets_ok path wb.sheets hok]
  · intro pre n post hsplit hok
    simp [runScript, h2, hpath, hfs, hsplit, renderSheets_fail path pre n post hok]

theorem c6_loop_order_fatal_witness :
    (runScript ["read_excel.py", "bad.xlsx"]
        (fun p => if p = "bad.xlsx" then some wbFail else none) anyWorld).stdout =
      listHeader :: pyRepr wbFail.sheet_names :: "" ::
        (blocks [("S1", some df2)] ++ [headerLine "S2"]) ∧
    (runScript ["read_excel.py", "bad.xlsx"]
        (fun p => if p = "bad.xlsx" then some wbFail else none) anyWorld).exitCode ≠ 0 :=
  (c6_loop_order_fatal ["read_excel.py", "bad.xlsx"]
      (fun p => if p = "bad.xlsx" then some wbFail else none) anyWorld
      "bad.xlsx" wbFail (by decide) (by decide) (by decide)).2
    [("S1", some df2)] "S2" [("S3", some df1)] (by decide) (by decide)

/-- Claim C7: the rendered table of a sheet keeps exactly the loader's
columns, in order, as its first line; every rendered row has exactly one
entry per column (given a rectangular grid) and no row-index column is
added; the table has one line per grid row plus the header line. -/
theorem c7_columns_preserved (df : DataFrame)
    (hw : ∀ r ∈ df.rows, r.length = df.columns.length) :
    df.fillnaEmpty.columns = df.columns ∧
    df.fillnaEmpty.tableGrid.head? = some df.columns ∧
    (∀ r ∈ df.fillnaEmpty.tableGrid, r.length = df.columns.length) ∧
    (tableLines df.fillnaEmpty).length = df.rows.length + 1 := by
  refine ⟨rfl, rfl, ?_, ?_⟩
  · intro r hr
    simp only [DataFrame.tableGrid, DataFrame.fillnaEmpty, DataFrame.cellTexts,
      List.mem_cons, List.mem_map] at hr
    rcases hr with h | ⟨r0, hr0, rfl⟩
    · simp [h]
    · rcases hr0 with ⟨r1, hr1, rfl⟩
      simp [hw r1 hr1]
  · simp [tableLines, DataFrame.tableGrid, DataFrame.cellTexts,
      DataFrame.fillnaEmpty]

theorem c7_columns_preserved_witness :
    df1.fillnaEmpty.columns = df1.columns ∧
    df1.fillnaEmpty.tableGrid.head? = some df1.columns ∧
    (∀ r ∈ df1.fillnaEmpty.tableGrid, r.length = df1.columns.length) ∧
    (tableLines df1.fillnaEmpty).length = df1.rows.length + 1 :=
  c7_columns_preserved df1 (by decide)

/-- Claim C9: with at least one positional argument, the observable
outcome depends only on the first positional argument and the contents of
the file it names; extra arguments and every other file are ignored. -/
theorem c9_only_first_arg (argv1 argv2 : List String) (fs1 fs2 : FileSystem)
    (w1 w2 : World)
    (h1 : 2 ≤ argv1.length) (h2 : 2 ≤ argv2.length)
    (hp : argv1[1]? = argv2[1]?)
    (hf : ∀ p, argv1[1]? = some p → fs1 p = fs2 p) :
    runScript argv1 fs1 w1 = runScript argv2 fs2 w2 := by
  have n1 : ¬ argv1.length < 2 := by omega
  have n2 : ¬ argv2.length < 2 := by omega
  have hlt : 1 < argv1.length := by omega
  have hp1 : argv1[1]? = some argv1[1] := List.getElem?_eq_getElem hlt
  have hp2 : argv2[1]? = some argv1[1] := by rw [← hp, hp1]
  have hfs : fs1 argv1[1] = fs2 argv1[1] := hf _ hp1
  simp [runScript, n1, n2, hp1, hp2, hfs]

theorem c9_only_first_arg_witness :
    runScript ["read_excel.py", "book.xlsx"] fsC5 anyWorld =
      runScript ["python3", "book.xlsx", "extra", "args"] fsC5 ⟨fun _ => none, 7⟩ :=
  c9_only_first_arg ["read_excel.py", "book.xlsx"]
    ["python3", "book.xlsx", "extra", "args"] fsC5 fsC5 anyWorld ⟨fun _ => none, 7⟩
    (by decide) (by decide) (by decide) (fun _ _ => rfl)

/-- Claim C10: on a valid workbook with zero sheets, stdout is exactly the
list-header line, the empty list representation, and a blank line, with no
per-sheet output, and the exit code is 0. -/
theorem c10_zero_sheets (argv : List String) (fs : FileSystem) (w : World)
    (path : String) (wb : Workbook)
    (hlen : 2 ≤ argv.length) (hpath : argv[1]? = some path)
    (hfs : fs path = some wb) (hz : wb.sheets = []) :
    (runScript argv fs w).stdout = [listHeader, "[]", ""] ∧
    (runScript argv fs w).exitCode = 0 := by
  have h2 : ¬ argv.length < 2 := by omega
  simp [runScript, h2, hpath, hfs, hz, Workbook.sheet_names, pyRepr,
    renderSheets]
  rfl

theorem c10_zero_sheets_witness :
    (runScript ["read_excel.py", "empty.xlsx"]
        (fun p => if p = "empty.xlsx" then some ⟨[]⟩ else none) anyWorld).stdout =
      [listHeader, "[]", ""] ∧
    (runScript ["read_excel.py", "empty.xlsx"]
        (fun p => if p = "empty.xlsx" then some ⟨[]⟩ else none) anyWorld).exitCode = 0 :=
  c10_zero_sheets ["read_excel.py", "empty.xlsx"]
    (fun p => if p = "empty.xlsx" then some ⟨[]⟩ else none) anyWorld
    "empty.xlsx" ⟨[]⟩ (by decide) (by decide) (by decide) rfl

end ReadExcel
